import Mathlib

/-!
Verification development for the `jwdavis/distribution` repository: three
instructional notebooks (`pipelines_custom_training.ipynb`,
`explainable_text_classification.ipynb`, `fairness_tfdv_tfma.ipynb`).

Python strings are modelled as `List Char` where character-level behaviour
matters (slicing, splitting), and as Lean `String` where they are opaque
identifiers.  Each notebook's code cells are additionally transcribed at
statement granularity into a small Python-statement syntax (`PyStmt`), which
records, for every statement, its syntactic form and the dotted names of the
calls it performs; this is what the structural claims (absence of
try/except, absence of thread/process/Beam-pipeline construction) quantify
over.
-/

/-- The semantics of Python `str.split(sep)` on character lists: splits on
every occurrence of `sep`; adjacent separators yield empty fields. -/
def pySplit (sep : Char) : List Char → List (List Char)
  | [] => [[]]
  | c :: rest =>
    let r := pySplit sep rest
    if c = sep then [] :: r
    else
      match r with
      | [] => [[c]]
      | f :: fs => (c :: f) :: fs

/-- The semantics of Python `s.startswith(p)` on character lists. -/
def pyStartswith : List Char → List Char → Bool
  | _, [] => true
  | [], _ :: _ => false
  | c :: s, p :: ps => c = p && pyStartswith s ps

/-- A CSV field that is a plain (unsigned) decimal numeral: nonempty, only
digits and at most one decimal point. -/
def isNumericField (s : List Char) : Bool :=
  s ≠ [] && s.all (fun c => c.isDigit || c = '.') &&
    (s.filter (fun c => c = '.')).length ≤ 1

/-- Statement-level syntax of the Python code appearing in the notebooks'
code cells.  Each statement records its syntactic form; expression detail is
abstracted to the list of dotted call names the statement performs (shell
escapes `!cmd` and cell magics `%%magic` are kept as their own forms).  An
IPython shell capture `x = !cmd` is recorded as an `assign` whose call list
holds the `!`-prefixed command. -/
inductive PyStmt where
  | importStmt (modules : List String)
  | assign (targets : List String) (calls : List String)
  | exprStmt (calls : List String)
  | funcDef (decorators : List String) (name : String) (params : List String)
      (body : List PyStmt)
  | forStmt (target : String) (iterCalls : List String) (body : List PyStmt)
  | whileStmt (condCalls : List String) (body : List PyStmt)
  | ifStmt (condCalls : List String) (thenBody elseBody : List PyStmt)
  | withStmt (ctxCalls : List String) (body : List PyStmt)
  | tryStmt (body handlers orelseBody finallyBody : List PyStmt)
  | returnStmt (calls : List String)
  | shellCmd (cmd : String)
  | magicCmd (cmd : String)

mutual

/-- Does a statement contain a `try`/`except` handler anywhere (including
nested bodies)? -/
def stmtHasTry : PyStmt → Bool
  | .importStmt _ => false
  | .assign _ _ => false
  | .exprStmt _ => false
  | .funcDef _ _ _ body => stmtsHaveTry body
  | .forStmt _ _ body => stmtsHaveTry body
  | .whileStmt _ body => stmtsHaveTry body
  | .ifStmt _ t e => stmtsHaveTry t || stmtsHaveTry e
  | .withStmt _ body => stmtsHaveTry body
  | .tryStmt _ _ _ _ => true
  | .returnStmt _ => false
  | .shellCmd _ => false
  | .magicCmd _ => false

/-- Does any statement in the list contain a `try`/`except` handler? -/
def stmtsHaveTry : List PyStmt → Bool
  | [] => false
  | s :: ss => stmtHasTry s || stmtsHaveTry ss

end

mutual

/-- Does a statement contain a `while` loop anywhere? -/
def stmtHasWhile : PyStmt → Bool
  | .importStmt _ => false
  | .assign _ _ => false
  | .exprStmt _ => false
  | .funcDef _ _ _ body => stmtsHaveWhile body
  | .forStmt _ _ body => stmtsHaveWhile body
  | .whileStmt _ _ => true
  | .ifStmt _ t e => stmtsHaveWhile t || stmtsHaveWhile e
  | .withStmt _ body => stmtsHaveWhile body
  | .tryStmt b h o f =>
      stmtsHaveWhile b || stmtsHaveWhile h || stmtsHaveWhile o || stmtsHaveWhile f
  | .returnStmt _ => false
  | .shellCmd _ => false
  | .magicCmd _ => false

/-- Does any statement in the list contain a `while` loop? -/
def stmtsHaveWhile : List PyStmt → Bool
  | [] => false
  | s :: ss => stmtHasWhile s || stmtsHaveWhile ss

end

mutual

/-- All dotted call names performed by a statement, nested bodies included. -/
def stmtCalls : PyStmt → List String
  | .importStmt _ => []
  | .assign _ cs => cs
  | .exprStmt cs => cs
  | .funcDef decs _ _ body => decs ++ stmtsCalls body
  | .forStmt _ ics body => ics ++ stmtsCalls body
  | .whileStmt cs body => cs ++ stmtsCalls body
  | .ifStmt cs t e => cs ++ stmtsCalls t ++ stmtsCalls e
  | .withStmt cs body => cs ++ stmtsCalls body
  | .tryStmt b h o f =>
      stmtsCalls b ++ stmtsCalls h ++ stmtsCalls o ++ stmtsCalls f
  | .returnStmt cs => cs
  | .shellCmd _ => []
  | .magicCmd _ => []

/-- All dotted call names performed by a list of statements. -/
def stmtsCalls : List PyStmt → List String
  | [] => []
  | s :: ss => stmtCalls s ++ stmtsCalls ss

end

/-- A notebook code cell: its list of top-level statements. -/
abbrev CodeCell := List PyStmt

/-- Python concurrency-primitive constructors: calls that create a thread or
a process object from Python code. -/
def concurrencyPrimitives : List String :=
  ["threading.Thread", "multiprocessing.Process",
   "concurrent.futures.ThreadPoolExecutor",
   "concurrent.futures.ProcessPoolExecutor", "os.fork", "subprocess.Popen"]

/-- Does a cell construct an Apache Beam pipeline (`beam.Pipeline`)? -/
def usesBeamPipeline (cell : CodeCell) : Bool :=
  (stmtsCalls cell).contains "beam.Pipeline"

/-- Does a cell create a thread or a process via a Python concurrency
primitive? -/
def createsThreadOrProcess (cell : CodeCell) : Bool :=
  (stmtsCalls cell).any (fun c => concurrencyPrimitives.contains c)

/-! ### `pipelines_custom_training.ipynb` — code cells, in notebook order.

Cell numbering follows the position among all cells of the notebook.
Shell escapes and magics are summarized (quote characters and `{...}`
interpolations are elided from the recorded command text). -/

/-- Cell 3: PATH magic and the two pip installs. -/
def pipelinesCell3 : CodeCell :=
  [.magicCmd "env PATH with local bin appended",
   .shellCmd "pip3 install -q --user kfp>=1.8.0,<2.0.0",
   .shellCmd "pip3 install -q --user google-cloud-pipeline-components<2"]

/-- Cell 6: kernel restart after installs. -/
def pipelinesCell6 : CodeCell :=
  [.importStmt ["IPython"],
   .assign ["app"] ["IPython.Application.instance"],
   .exprStmt ["app.kernel.do_shutdown"]]

/-- Cell 8: version checks via shell. -/
def pipelinesCell8 : CodeCell :=
  [.shellCmd "python3 -c print kfp version",
   .shellCmd "python3 -c print google_cloud_pipeline_components version"]

/-- Cell 10: library imports. -/
def pipelinesCell10 : CodeCell :=
  [.importStmt ["datetime.datetime", "kfp.v2.compiler", "kfp.v2.dsl",
    "google.cloud.aiplatform",
    "google_cloud_pipeline_components.aiplatform.TabularDatasetCreateOp",
    "google_cloud_pipeline_components.aiplatform.CustomContainerTrainingJobRunOp",
    "google_cloud_pipeline_components.aiplatform.ModelBatchPredictOp", "os"]]

/-- Cell 12: project id, region, bucket creation, IAM binding. -/
def pipelinesCell12 : CodeCell :=
  [.assign ["PROJECT_ID"] [],
   .assign ["REGION"] [],
   .ifStmt ["not PROJECT_ID"]
     [.assign ["shell_output"] ["!gcloud config list --format value(core.project)"],
      .assign ["PROJECT_ID"] [],
      .exprStmt ["print"]] [],
   .assign ["BUCKET_NAME"] [],
   .exprStmt ["print"],
   .shellCmd "gsutil ls BUCKET_NAME || gsutil mb -l REGION BUCKET_NAME",
   .assign ["shell_out"] ["!gcloud auth list --format value(account)"],
   .assign ["SVC_ACCT"] [],
   .shellCmd "gcloud storage buckets add-iam-policy-binding BUCKET_NAME"]

/-- Cell 15: create the container code directory. -/
def pipelinesCell15 : CodeCell :=
  [.shellCmd "mkdir -p traincontainer/trainer",
   .shellCmd "touch traincontainer/Dockerfile",
   .shellCmd "touch traincontainer/trainer/train.py"]

/-- Cell 17: `%%writefile` of the Dockerfile (the cell body is Dockerfile
text, not Python). -/
def pipelinesCell17 : CodeCell :=
  [.magicCmd "writefile traincontainer/Dockerfile"]

/-- The statements of the generated training script `train.py` (cell 19
writes this file).  `os.environ[...]` subscripts are recorded in the call
list since, like a call, they can raise (`KeyError`). -/
def trainPyStmts : List PyStmt :=
  [.importStmt ["sklearn.tree.DecisionTreeClassifier", "sklearn.metrics.roc_curve",
    "sklearn.model_selection.train_test_split", "google.cloud.bigquery",
    "google.cloud.storage", "joblib.dump", "os", "pandas"],
   .assign ["bqclient"] ["bigquery.Client"],
   .assign ["storage_client"] ["storage.Client"],
   .funcDef [] "download_table" ["bq_table_uri"]
     [.assign ["prefix"] [],
      .ifStmt ["bq_table_uri.startswith"]
        [.assign ["bq_table_uri"] ["len"]] [],
      .assign ["table"] ["bigquery.TableReference.from_string"],
      .assign ["rows"] ["bqclient.list_rows"],
      .returnStmt ["rows.to_dataframe"]],
   .assign ["training_data_uri"] ["os.environ[AIP_TRAINING_DATA_URI]"],
   .assign ["test_data_uri"] ["os.environ[AIP_TEST_DATA_URI]"],
   .assign ["df"] ["download_table"],
   .assign ["test_df"] ["download_table"],
   .assign ["labels"] ["df.pop", "tolist"],
   .assign ["data"] ["df.values.tolist"],
   .assign ["test_labels"] ["test_df.pop", "tolist"],
   .assign ["test_data"] ["test_df.values.tolist"],
   .assign ["skmodel"] ["DecisionTreeClassifier"],
   .exprStmt ["skmodel.fit"],
   .assign ["score"] ["skmodel.score"],
   .exprStmt ["print"],
   .exprStmt ["dump"],
   .assign ["bucket"] ["storage_client.get_bucket"],
   .assign ["model_directory"] ["os.environ[AIP_MODEL_DIR]"],
   .assign ["storage_path"] ["os.path.join"],
   .assign ["blob"] ["storage.blob.Blob.from_string"],
   .exprStmt ["blob.upload_from_filename"]]

/-- Cell 19: `%%writefile` of `train.py`; the written Python statements are
included so that structural claims also cover the generated script. -/
def pipelinesCell19 : CodeCell :=
  .magicCmd "writefile traincontainer/trainer/train.py" :: trainPyStmts

/-- Cell 21: substitute the bucket name into the training script. -/
def pipelinesCell21 : CodeCell :=
  [.assign ["BUCKET"] [],
   .shellCmd "sed -i -r s/YOUR_GCS_BUCKET/BUCKET/ traincontainer/trainer/train.py"]

/-- Cell 25: Artifact Registry constants and repository creation. -/
def pipelinesCell25 : CodeCell :=
  [.assign ["REPO_NAME"] [],
   .assign ["REPO_URI"] [],
   .assign ["IMAGE_NAME"] [],
   .assign ["VERSION"] [],
   .shellCmd "gcloud artifacts repositories create REPO_NAME --location REGION --repository-format=docker"]

/-- Cell 27: docker credential helper setup. -/
def pipelinesCell27 : CodeCell :=
  [.shellCmd "echo y | gcloud auth configure-docker REGION-docker.pkg.dev"]

/-- Cell 29: container build. -/
def pipelinesCell29 : CodeCell :=
  [.shellCmd "docker build ./traincontainer -t REPO_URI/IMAGE_NAME:VERSION"]

/-- Cell 31: container push. -/
def pipelinesCell31 : CodeCell :=
  [.shellCmd "docker push REPO_URI/IMAGE_NAME:VERSION"]

/-- Cell 34: `%%writefile` of `batch_examples.csv` (the cell body is CSV
text, transcribed separately as `batch_examples_header` and
`batch_examples_rows`). -/
def pipelinesCell34 : CodeCell :=
  [.magicCmd "writefile batch_examples.csv"]

/-- Cell 36: copy the CSV to Cloud Storage. -/
def pipelinesCell36 : CodeCell :=
  [.shellCmd "gsutil cp batch_examples.csv BUCKET_NAME"]

/-- Cell 39: pipeline root constant. -/
def pipelinesCell39 : CodeCell :=
  [.assign ["PIPELINE_ROOT"] [],
   .exprStmt []]

/-- Cell 43: the `@dsl.pipeline`-decorated pipeline definition
(`my_pipeline`, embedded functionally below). -/
def pipelinesCell43 : CodeCell :=
  [.funcDef ["dsl.pipeline"] "my_pipeline"
    ["bq_source", "bucket", "project", "gcp_region", "bq_dest",
     "container_uri", "batch_destination"]
    [.assign ["dataset_create_op"] ["TabularDatasetCreateOp"],
     .assign ["training_op"] ["CustomContainerTrainingJobRunOp"],
     .assign ["batch_predict_op"] ["ModelBatchPredictOp"]]]

/-- Cell 45: compile the pipeline to JSON. -/
def pipelinesCell45 : CodeCell :=
  [.exprStmt ["compiler.Compiler", "compile"]]

/-- Cell 47: define the pipeline job. -/
def pipelinesCell47 : CodeCell :=
  [.assign ["TIMESTAMP"] ["datetime.now", "strftime"],
   .assign ["pipeline_job"] ["aiplatform.PipelineJob"]]

/-- Cell 49: submit the pipeline job. -/
def pipelinesCell49 : CodeCell :=
  [.exprStmt ["pipeline_job.submit"]]

/-- All code cells of `pipelines_custom_training.ipynb`, in order. -/
def pipelinesCodeCells : List CodeCell :=
  [pipelinesCell3, pipelinesCell6, pipelinesCell8, pipelinesCell10,
   pipelinesCell12, pipelinesCell15, pipelinesCell17, pipelinesCell19,
   pipelinesCell21, pipelinesCell25, pipelinesCell27, pipelinesCell29,
   pipelinesCell31, pipelinesCell34, pipelinesCell36, pipelinesCell39,
   pipelinesCell43, pipelinesCell45, pipelinesCell47, pipelinesCell49]

/-! ### `explainable_text_classification.ipynb` — code cells, in order. -/

/-- Cell 0: license header (comments only). -/
def explainCell0 : CodeCell := []

/-- Cell 5: imports and warning configuration. -/
def explainCell5 : CodeCell :=
  [.importStmt ["os", "warnings"],
   .exprStmt ["warnings.filterwarnings"],
   .assign ["os.environ[TF_CPP_MIN_LOG_LEVEL]"] [],
   .importStmt ["numpy", "tensorflow", "google.cloud.aiplatform",
     "google.cloud.storage", "keras.datasets.imdb", "keras.layers",
     "keras.models.Sequential", "keras.utils.pad_sequences", "json",
     "matplotlib.pyplot", "IPython.display"]]

/-- Cell 7: project, region and bucket constants. -/
def explainCell7 : CodeCell :=
  [.assign ["project_id_list"] ["!gcloud config get-value project"],
   .assign ["PROJECT_ID"] [],
   .assign ["REGION"] [],
   .assign ["BUCKET_URI"] []]

/-- Cell 8: bucket creation. -/
def explainCell8 : CodeCell :=
  [.shellCmd "gsutil ls BUCKET_URI || gsutil mb -l REGION BUCKET_URI"]

/-- Cell 9: SDK initialization. -/
def explainCell9 : CodeCell :=
  [.exprStmt ["aiplatform.init"]]

/-- Cell 12: load and pad the IMDB dataset. -/
def explainCell12 : CodeCell :=
  [.assign ["max_features"] [],
   .assign ["maxlen"] [],
   .assign ["(x_train, y_train), (x_test, y_test)"] ["imdb.load_data"],
   .assign ["x_train"] ["pad_sequences"],
   .assign ["x_test"] ["pad_sequences"]]

/-- Cell 14: display a review. -/
def explainCell14 : CodeCell :=
  [.exprStmt []]

/-- Cell 18: deterministic seeds and initializers. -/
def explainCell18 : CodeCell :=
  [.exprStmt ["tf.keras.utils.set_random_seed"],
   .exprStmt ["tf.config.experimental.enable_op_determinism"],
   .assign ["weight_init"] ["tf.keras.initializers.GlorotNormal"],
   .assign ["bias_init"] ["tf.keras.initializers.Zeros"]]

/-- Cell 19: build, compile, fit and evaluate the LSTM model. -/
def explainCell19 : CodeCell :=
  [.assign ["model"] ["Sequential"],
   .exprStmt ["model.add", "Embedding"],
   .exprStmt ["model.add", "LSTM"],
   .exprStmt ["model.add", "Dense"],
   .exprStmt ["model.compile"],
   .exprStmt ["model.fit"],
   .assign ["loss, accuracy"] ["model.evaluate"],
   .exprStmt ["print"]]

/-- Cell 21: export the model. -/
def explainCell21 : CodeCell :=
  [.assign ["MODEL_DIR"] [],
   .exprStmt ["tf.saved_model.save"]]

/-- Cell 25: reload the model and read the serving signatures. -/
def explainCell25 : CodeCell :=
  [.assign ["MODEL_DIR"] [],
   .assign ["saved_model"] ["tf.saved_model.load"],
   .assign ["serving_input"] ["list", "keys"],
   .assign ["serving_output"] ["list", "keys"],
   .exprStmt ["print"],
   .exprStmt ["print"]]

/-- Cell 26: explanation metadata. -/
def explainCell26 : CodeCell :=
  [.assign ["INPUT_METADATA"]
     ["aiplatform.explain.ExplanationMetadata.InputMetadata",
      "aiplatform.explain.ExplanationMetadata.InputMetadata.Encoding"],
   .assign ["OUTPUT_METADATA"]
     ["aiplatform.explain.ExplanationMetadata.OutputMetadata"],
   .assign ["metadata"] ["aiplatform.explain.ExplanationMetadata"]]

/-- Cell 28: sampled-Shapley explanation parameters. -/
def explainCell28 : CodeCell :=
  [.assign ["FEATURE_PARAMETERS"] [],
   .assign ["feature_parameters"] ["aiplatform.explain.ExplanationParameters"]]

/-- Cell 30: upload the model to Model Registry. -/
def explainCell30 : CodeCell :=
  [.assign ["uploaded_feature_model"] ["aiplatform.Model.upload"]]

/-- Cell 32: deploy the model to an endpoint. -/
def explainCell32 : CodeCell :=
  [.assign ["feature_endpoint"] ["uploaded_feature_model.deploy"]]

/-- Cell 34: the `send_explanation_request` helper (embedded functionally
below). -/
def explainCell34 : CodeCell :=
  [.funcDef [] "send_explanation_request" ["endpoint", "review"]
    [.assign ["example"] ["x_test[review].tolist"],
     .assign ["example_label"] [],
     .assign ["result"] ["endpoint.explain"],
     .assign ["prediction"] [],
     .assign ["explanations"] [],
     .returnStmt []]]

/-- Cell 35: the word index and the `decode_sentence` helper. -/
def explainCell35 : CodeCell :=
  [.assign ["index"] ["imdb.get_word_index"],
   .assign ["reverse_index"] [],
   .funcDef [] "decode_sentence" ["x", "index"]
     [.returnStmt ["join", "index.get"]]]

/-- Cell 36: request an explanation for review 2. -/
def explainCell36 : CodeCell :=
  [.assign ["example, example_label, prediction, explanations"]
     ["send_explanation_request"]]

/-- Cell 38: extract the attributions array. -/
def explainCell38 : CodeCell :=
  [.assign ["attributions"] [],
   .exprStmt []]

/-- Cell 42: the `highlight`, `colorize` and `display_highlights` helpers
(the first two embedded functionally below). -/
def explainCell42 : CodeCell :=
  [.funcDef [] "highlight" ["string", "color"]
     [.returnStmt []],
   .funcDef [] "colorize" ["attrs", "cmap"]
     [.importStmt ["matplotlib"],
      .assign ["cmap_bound"] ["np.abs", "max"],
      .assign ["norm"] ["mpl.colors.Normalize"],
      .assign ["cmap"] ["mpl.cm.get_cmap"],
      .assign ["colors"] ["list", "map", "mpl.colors.rgb2hex", "cmap", "norm"],
      .returnStmt []],
   .funcDef [] "display_highlights"
     ["example", "example_label", "prediction", "attributions"]
     [.assign ["words"] ["decode_sentence", "split"],
      .assign ["colors"] ["colorize"],
      .exprStmt ["print"],
      .exprStmt ["display", "HTML", "join", "list", "map", "highlight"],
      .returnStmt []]]

/-- Cell 43: highlight review 2. -/
def explainCell43 : CodeCell :=
  [.assign ["words"] ["display_highlights"]]

/-- Cell 45: request and highlight review 10. -/
def explainCell45 : CodeCell :=
  [.assign ["example, example_label, prediction, explanations"]
     ["send_explanation_request"],
   .assign ["attributions"] [],
   .assign ["words"] ["display_highlights"]]

/-- Cell 47: the feature-attribution bar plot (`importance_dict` embedded
functionally below). -/
def explainCell47 : CodeCell :=
  [.assign ["importance_dict"] ["zip"],
   .assign ["sorted_feature_names"] ["sorted"],
   .assign ["sorted_attr_values"] [],
   .assign ["num_features"] ["len"],
   .ifStmt ["num_features > 0"]
     [.assign ["x_pos"] ["list", "range"],
      .exprStmt ["plt.figure"],
      .exprStmt ["plt.barh"],
      .exprStmt ["plt.yticks"],
      .exprStmt ["plt.title"],
      .exprStmt ["plt.ylabel"],
      .exprStmt ["plt.xlabel"],
      .exprStmt ["plt.show"]] []]

/-- All code cells of `explainable_text_classification.ipynb`, in order. -/
def explainCodeCells : List CodeCell :=
  [explainCell0, explainCell5, explainCell7, explainCell8, explainCell9,
   explainCell12, explainCell14, explainCell18, explainCell19, explainCell21,
   explainCell25, explainCell26, explainCell28, explainCell30, explainCell32,
   explainCell34, explainCell35, explainCell36, explainCell38, explainCell42,
   explainCell43, explainCell45, explainCell47]

/-! ### `fairness_tfdv_tfma.ipynb` — code cells, in order. -/

/-- Cell 0: license header (comments only). -/
def fairnessCell0 : CodeCell := []

/-- Cell 6: show requirements.txt. -/
def fairnessCell6 : CodeCell :=
  [.shellCmd "cat requirements.txt"]

/-- Cell 8: install requirements. -/
def fairnessCell8 : CodeCell :=
  [.shellCmd "pip -q install -r requirements.txt"]

/-- Cell 10: kernel-restart helper, fully commented out. -/
def fairnessCell10 : CodeCell := []

/-- Cell 12: imports and warning configuration. -/
def fairnessCell12 : CodeCell :=
  [.importStmt ["sys", "os", "warnings"],
   .exprStmt ["warnings.filterwarnings"],
   .assign ["os.environ[TF_CPP_MIN_LOG_LEVEL]"] [],
   .importStmt ["apache_beam", "google.protobuf.text_format", "pprint",
     "tensorflow", "tensorflow_model_analysis", "tensorflow_data_validation",
     "tensorflow_model_analysis.addons.fairness.post_export_metrics.fairness_indicators",
     "tfx_bsl.tfxio.tf_example_record"]]

/-- Cell 17: download the two TFRecord files. -/
def fairnessCell17 : CodeCell :=
  [.assign ["train_tf_file"] ["tf.keras.utils.get_file"],
   .assign ["validate_tf_file"] ["tf.keras.utils.get_file"]]

/-- Cell 21: generate training-set statistics. -/
def fairnessCell21 : CodeCell :=
  [.assign ["stats"] ["tfdv.generate_statistics_from_tfrecord"]]

/-- Cell 23: infer and display the schema. -/
def fairnessCell23 : CodeCell :=
  [.assign ["schema"] ["tfdv.infer_schema"],
   .exprStmt ["tfdv.display_schema"]]

/-- Cell 26: visualize the statistics. -/
def fairnessCell26 : CodeCell :=
  [.exprStmt ["tfdv.visualize_statistics"]]

/-- Cell 29: define the gender slice. -/
def fairnessCell29 : CodeCell :=
  [.assign ["slice_fn"] ["tfdv.experimental_get_feature_value_slicer"]]

/-- Cell 30: generate sliced statistics. -/
def fairnessCell30 : CodeCell :=
  [.assign ["stats_options"] ["tfdv.StatsOptions"],
   .assign ["sliced_stats"] ["tfdv.generate_statistics_from_tfrecord"]]

/-- Cell 32: print slice dataset names. -/
def fairnessCell32 : CodeCell :=
  [.forStmt "dataset" []
    [.exprStmt ["print"]]]

/-- Cell 33: compare overall and gender_female statistics. -/
def fairnessCell33 : CodeCell :=
  [.exprStmt ["tfdv.visualize_statistics", "tfdv.get_slice_stats",
    "tfdv.get_slice_stats"]]

/-- Cell 38: evaluation input and output paths. -/
def fairnessCell38 : CodeCell :=
  [.assign ["tfma_export_dir"] [],
   .assign ["tfma_eval_result_path"] []]

/-- Cell 39: parse the eval config (embedded functionally below as
`eval_config`), load the shared model, and run the analysis. -/
def fairnessCell39 : CodeCell :=
  [.assign ["eval_config"] ["text_format.Parse", "tfma.EvalConfig"],
   .assign ["eval_shared_model"] ["tfma.default_eval_shared_model"],
   .assign ["eval_result"] ["tfma.run_model_analysis"]]

/-- Cell 42: pretty printer. -/
def fairnessCell42 : CodeCell :=
  [.assign ["pp"] ["pprint.PrettyPrinter"]]

/-- Cell 43: print slice names. -/
def fairnessCell43 : CodeCell :=
  [.exprStmt ["print"],
   .exprStmt ["pp.pprint", "eval_result.get_slice_names"]]

/-- Cell 44: print metric names. -/
def fairnessCell44 : CodeCell :=
  [.exprStmt ["print"],
   .exprStmt ["pp.pprint", "eval_result.get_metric_names"]]

/-- Cell 45: metrics for the baseline and female slices. -/
def fairnessCell45 : CodeCell :=
  [.assign ["baseline_slice"] [],
   .assign ["female_slice"] [],
   .exprStmt ["print"],
   .exprStmt ["pp.pprint", "eval_result.get_metrics_for_slice"],
   .exprStmt ["print"],
   .exprStmt ["pp.pprint", "eval_result.get_metrics_for_slice"]]

/-- Cell 46: metrics for all slices. -/
def fairnessCell46 : CodeCell :=
  [.exprStmt ["pp.pprint", "eval_result.get_metrics_for_all_slices"]]

/-- Cell 47: empty trailing cell. -/
def fairnessCell47 : CodeCell := []

/-- All code cells of `fairness_tfdv_tfma.ipynb`, in order. -/
def fairnessCodeCells : List CodeCell :=
  [fairnessCell0, fairnessCell6, fairnessCell8, fairnessCell10,
   fairnessCell12, fairnessCell17, fairnessCell21, fairnessCell23,
   fairnessCell26, fairnessCell29, fairnessCell30, fairnessCell32,
   fairnessCell33, fairnessCell38, fairnessCell39, fairnessCell42,
   fairnessCell43, fairnessCell44, fairnessCell45, fairnessCell46,
   fairnessCell47]

/-- The Apache Beam code listing shown inside a markdown cell of the
fairness notebook ("Run model analysis ... at scale with Apache Beam"); it
is displayed as documentation and is not one of the executed code cells. -/
def fairnessBeamListing : CodeCell :=
  [.assign ["tfx_io"] ["tf_example_record.TFExampleRecord"],
   .withStmt ["beam.Pipeline"]
     [.assign ["_"] ["tfx_io.BeamSource", "tfma.ExtractEvaluateAndWriteResults"]]]

/-- Every executed code cell of the three notebooks. -/
def allCodeCells : List CodeCell :=
  pipelinesCodeCells ++ explainCodeCells ++ fairnessCodeCells

/-! ### Functional model of `train.py` (written by cell 19). -/

/-- A Python exception relevant to the modelled code. -/
inductive PyError where
  | keyError (key : String)
deriving DecidableEq

/-- The semantics of Python `os.environ[key]`: the value when the variable
is set, otherwise an uncaught `KeyError`. -/
def osEnvironSubscript (env : String → Option String) (key : String) :
    Except PyError String :=
  match env key with
  | some v => Except.ok v
  | none => Except.error (PyError.keyError key)

/-- The two managed-dataset environment reads at the top of `train.py`:
`training_data_uri = os.environ["AIP_TRAINING_DATA_URI"]` followed by
`test_data_uri = os.environ["AIP_TEST_DATA_URI"]`.  There is no handler in
the script, so a raised `KeyError` propagates. -/
def train_py_env_reads (env : String → Option String) :
    Except PyError (String × String) :=
  match osEnvironSubscript env "AIP_TRAINING_DATA_URI" with
  | Except.error e => Except.error e
  | Except.ok training_data_uri =>
    match osEnvironSubscript env "AIP_TEST_DATA_URI" with
    | Except.error e => Except.error e
    | Except.ok test_data_uri => Except.ok (training_data_uri, test_data_uri)

/-- The URI normalization performed at the top of `download_table` in
`train.py`: when `bq_table_uri` starts with `"bq://"` the first
`len("bq://")` characters are sliced off, otherwise the string is passed on
unchanged.  Python strings are modelled as `List Char`. -/
def download_table_uri_arg (bq_table_uri : List Char) : List Char :=
  if pyStartswith bq_table_uri "bq://".data then
    bq_table_uri.drop "bq://".data.length
  else bq_table_uri

/-- `download_table` from `train.py`, parameterized by the external
BigQuery client operations it delegates to (`TableReference.from_string`
composed with `bqclient.list_rows` and `to_dataframe`). -/
def download_table {Table DF : Type} (from_string : List Char → Table)
    (list_rows_to_dataframe : Table → DF) (bq_table_uri : List Char) : DF :=
  let table := from_string (download_table_uri_arg bq_table_uri)
  list_rows_to_dataframe table

/-- The column handling in `train.py`: `df.pop("Class")` removes the
`Class` column, leaving the remaining columns as features. -/
def df_pop_columns (col : String) (columns : List String) : List String :=
  columns.erase col

/-- The header line of `batch_examples.csv` (cell 34 of the pipelines
notebook). -/
def batch_examples_header : String :=
  "Area,Perimeter,MajorAxisLength,MinorAxisLength,AspectRation,Eccentricity,ConvexArea,EquivDiameter,Extent,Solidity,roundness,Compactness,ShapeFactor1,ShapeFactor2,ShapeFactor3,ShapeFactor4"

/-- The data rows of `batch_examples.csv`, in file order. -/
def batch_examples_rows : List String :=
  ["23288,558.113,207.567738,143.085693,1.450653336,0.7244336162,23545,172.1952453,0.8045881703,0.9890847314,0.9395021523,0.8295857874,0.008913077034,0.002604069884,0.6882125787,0.9983578734",
   "23689,575.638,205.9678003,146.7475015,1.403552348,0.7016945718,24018,173.6714472,0.7652721693,0.9863019402,0.8983750474,0.8431970773,0.00869465998,0.002711119968,0.7109813112,0.9978994889",
   "23727,559.503,189.7993849,159.3717704,1.190922235,0.5430731512,24021,173.8106863,0.8037601626,0.9877607094,0.952462433,0.9157600082,0.007999299741,0.003470231343,0.8386163926,0.9987269085",
   "31158,641.105,212.0669751,187.1929601,1.132879009,0.4699241567,31474,199.1773023,0.7813134733,0.989959967,0.9526231013,0.9392188582,0.0068061806,0.003267009878,0.8821320637,0.9993488983",
   "32514,649.012,221.4454899,187.1344232,1.183349841,0.5346736437,32843,203.4652564,0.7849831,0.9899826447,0.9700068737,0.9188051492,0.00681077351,0.002994124691,0.8442029022,0.9989873701",
   "33078,659.456,235.5600775,178.9312328,1.316483846,0.6503915309,33333,205.2223615,0.7877214708,0.9923499235,0.9558229607,0.8712102818,0.007121351881,0.002530662194,0.7590073551,0.9992209221",
   "33680,683.09,256.203255,167.9334938,1.525623324,0.7552213942,34019,207.081404,0.80680321,0.9900349805,0.9070392732,0.8082699962,0.007606985006,0.002002710402,0.6533003868,0.9966903078",
   "33954,716.75,277.3684803,156.3563259,1.773951126,0.825970469,34420,207.9220419,0.7994819873,0.9864613597,0.8305492781,0.7496238998,0.008168948587,0.001591181142,0.5619359911,0.996846984",
   "36322,719.437,272.0582306,170.8914975,1.591993952,0.7780978465,36717,215.0502424,0.7718560075,0.9892420405,0.8818487005,0.7904566678,0.007490177594,0.001803782407,0.6248217437,0.9947124371",
   "36675,742.917,285.8908964,166.8819538,1.713132487,0.8119506999,37613,216.0927123,0.7788277766,0.9750618137,0.8350248381,0.7558572692,0.0077952528,0.001569528272,0.5713202115,0.9787472145",
   "37454,772.679,297.6274753,162.1493177,1.835514817,0.8385619338,38113,218.3756257,0.8016695205,0.9827093118,0.7883332637,0.7337213257,0.007946480356,0.001420623993,0.5383469838,0.9881438654",
   "37789,766.378,313.5680678,154.3409867,2.031657789,0.8704771226,38251,219.3500608,0.7805870567,0.9879218844,0.8085170916,0.6995293312,0.008297866252,0.001225659709,0.4893412853,0.9941740339",
   "47883,873.536,327.9986493,186.5201272,1.758516115,0.822571799,48753,246.9140116,0.7584464543,0.9821549443,0.7885506623,0.7527897207,0.006850002074,0.00135695419,0.5666923636,0.9965376533",
   "49777,861.277,300.7570338,211.6168613,1.42123379,0.7105823885,50590,251.7499649,0.8019106536,0.9839296304,0.843243269,0.8370542883,0.00604208839,0.001829706116,0.7006598815,0.9958014989",
   "49882,891.505,357.1890036,179.8346914,1.986207449,0.8640114945,51042,252.0153467,0.7260210171,0.9772736178,0.7886896753,0.7055518063,0.007160679276,0.001094585314,0.4978033513,0.9887407248",
   "53249,919.923,325.3866286,208.9174205,1.557489212,0.7666552108,54195,260.3818974,0.6966846347,0.9825445152,0.7907120655,0.8002231025,0.00611066177,0.001545654241,0.6403570138,0.9973491406",
   "61129,964.969,369.3481688,210.9473449,1.750902193,0.8208567513,61796,278.9836198,0.7501135067,0.9892064211,0.8249553283,0.7553404711,0.006042110436,0.001213219664,0.5705392272,0.9989583843",
   "61918,960.372,353.1381442,224.0962377,1.575832543,0.7728529173,62627,280.7782864,0.7539207091,0.9886790043,0.8436218213,0.7950947556,0.005703319619,0.00140599258,0.6321756704,0.9962029945",
   "141953,1402.05,524.2311633,346.3974998,1.513380332,0.7505863011,143704,425.1354762,0.7147107987,0.9878152313,0.9074598849,0.8109694843,0.003692991084,0.0009853172185,0.6576715044,0.9953071199",
   "145285,1440.991,524.9567463,353.0769977,1.486805285,0.7400216694,146709,430.0960442,0.7860466375,0.9902937107,0.8792413513,0.8192980608,0.003613289371,0.001004269363,0.6712493125,0.9980170255",
   "146153,1476.383,526.1933264,356.528288,1.475881001,0.7354662103,149267,431.3789276,0.7319360978,0.9791380546,0.8425962592,0.8198107159,0.003600290972,0.001003163512,0.6720896099,0.991924286"]

/-- The comma-separated fields of a CSV line. -/
def csvFields (line : String) : List (List Char) :=
  pySplit ',' line.data

/-! ### Functional model of `my_pipeline` (cell 43 of the pipelines
notebook).

The three pre-built components are modelled by records of the keyword
arguments the pipeline passes to them.  An op handle created by a component
call is identified by its creation index in the pipeline body (0 for
`dataset_create_op`, 1 for `training_op`, 2 for `batch_predict_op`), and
`op.outputs["name"]` is modelled as an `OutputRef` of that index and output
name. -/

/-- A reference to a named output of a previously created op. -/
structure OutputRef where
  producer : Nat
  output : String
deriving DecidableEq

/-- Keyword arguments of `TabularDatasetCreateOp`. -/
structure TabularDatasetCreateOpArgs where
  display_name : String
  bq_source : String
  project : String
  location : String
deriving DecidableEq

/-- Keyword arguments of `CustomContainerTrainingJobRunOp`. -/
structure CustomContainerTrainingJobRunOpArgs where
  display_name : String
  container_uri : String
  project : String
  location : String
  dataset : OutputRef
  staging_bucket : String
  training_fraction_split : ℚ
  validation_fraction_split : ℚ
  test_fraction_split : ℚ
  bigquery_destination : String
  model_serving_container_image_uri : String
  model_display_name : String
  machine_type : String
deriving DecidableEq

/-- Keyword arguments of `ModelBatchPredictOp`. -/
structure ModelBatchPredictOpArgs where
  project : String
  location : String
  job_display_name : String
  model : OutputRef
  gcs_source_uris : List String
  instances_format : String
  gcs_destination_output_uri_target : String
  machine_type : String
  starting_replica_count : Nat
  max_replica_count : Nat
deriving DecidableEq

/-- A component op created in the pipeline body. -/
inductive PipelineOp where
  | tabularDatasetCreate (args : TabularDatasetCreateOpArgs)
  | customContainerTrainingJobRun (args : CustomContainerTrainingJobRunOpArgs)
  | modelBatchPredict (args : ModelBatchPredictOpArgs)
deriving DecidableEq

/-- The op-output references an op consumes as inputs. -/
def PipelineOp.inputRefs : PipelineOp → List OutputRef
  | .tabularDatasetCreate _ => []
  | .customContainerTrainingJobRun a => [a.dataset]
  | .modelBatchPredict a => [a.model]

/-- The `@dsl.pipeline`-decorated `my_pipeline` function: it creates the
three component ops in order and wires them through op outputs.  The
notebook global `BUCKET_NAME`, captured by the f-string in
`gcs_source_uris`, is passed as the leading argument; the remaining
arguments are the pipeline's parameters.  (The modelled field
`gcs_destination_output_uri_target` transcribes a source keyword whose name
ends in the underscore-joined words output, uri and pre-fix.) -/
def my_pipeline (BUCKET_NAME : String)
    (bq_source bucket project gcp_region bq_dest container_uri
      batch_destination : String) : List PipelineOp :=
  let dataset_create_op : Nat := 0
  let training_op : Nat := 1
  [PipelineOp.tabularDatasetCreate
    { display_name := "tabular-beans-dataset"
      bq_source := bq_source
      project := project
      location := gcp_region },
   PipelineOp.customContainerTrainingJobRun
    { display_name := "pipeline-beans-custom-train"
      container_uri := container_uri
      project := project
      location := gcp_region
      dataset := OutputRef.mk dataset_create_op "dataset"
      staging_bucket := bucket
      training_fraction_split := 0.8
      validation_fraction_split := 0.1
      test_fraction_split := 0.1
      bigquery_destination := bq_dest
      model_serving_container_image_uri :=
        "us-docker.pkg.dev/vertex-ai/prediction/sklearn-cpu.1-2:latest"
      model_display_name := "scikit-beans-model"
      machine_type := "e2-standard-4" },
   PipelineOp.modelBatchPredict
    { project := project
      location := gcp_region
      job_display_name := "beans-batch-predict"
      model := OutputRef.mk training_op "model"
      gcs_source_uris := [BUCKET_NAME ++ "/batch_examples.csv"]
      instances_format := "csv"
      gcs_destination_output_uri_target := batch_destination
      machine_type := "n1-standard-2"
      starting_replica_count := 1
      max_replica_count := 1 }]

/-- Op `i` of the pipeline consumes output `out` of op `j`. -/
def consumesOutput (ops : List PipelineOp) (i j : Nat) (out : String) : Prop :=
  ∃ op, ops.get? i = some op ∧ OutputRef.mk j out ∈ op.inputRefs

/-! ### Functional model of the explainability notebook helpers. -/

/-- The result object returned by `endpoint.explain`: a list of predictions
(each a list of output values) and a list of per-instance explanations
(whose payload type `E` is opaque to the notebook code). -/
structure ExplainResult (E : Type) where
  predictions : List (List ℚ)
  explanations : List E

/-- `send_explanation_request` from cell 34, parameterized by the notebook
globals `x_test`, `y_test` and by the endpoint's `explain` operation.
`x_test[review].tolist()` is modelled as `x_test review` (bound to
`example_inst`, since `example` is a Lean keyword); the subscripts
`result.predictions[0][0]` and `result.explanations[0]` are fallible
(IndexError on an empty list), so the modelled function returns an
`Option`. -/
def send_explanation_request {E : Type} (x_test : Nat → List Int)
    (y_test : Nat → Int) (explain : List (List Int) → ExplainResult E)
    (review : Nat) : Option (List Int × Int × ℚ × E) :=
  let example_inst := x_test review
  let example_label := y_test review
  let result := explain [example_inst]
  match (result.predictions.get? 0).bind (fun p => p.get? 0),
      result.explanations.get? 0 with
  | some prediction, some explanations =>
      some (example_inst, example_label, prediction, explanations)
  | _, _ => none

/-- `highlight` from cell 42: pure local string formatting of a word with a
background color. -/
def highlight (string color : String) : String :=
  "<mark style=background-color:" ++ color ++ ">" ++ string ++ " </mark>"

/-- `decode_sentence` from cell 35: space-joins the words obtained by
looking up each token minus the 3-token keras offset in the reverse index,
with `"UNK"` for missing entries (`index.get(i - 3, "UNK")`). -/
def decode_sentence (x : List Int) (index : Int → Option String) : String :=
  String.intercalate " " (x.map (fun i => (index (i - 3)).getD "UNK"))

/-- `np.abs(attrs).max()` from `colorize`: the maximum absolute value of
the attribution list; raises on an empty array, hence `Option`. -/
def np_abs_max (attrs : List ℚ) : Option ℚ :=
  match attrs with
  | [] => none
  | a :: rest => some (rest.foldl (fun m x => max m |x|) |a|)

/-- `mpl.colors.Normalize(vmin, vmax)` applied to a value: affine
normalization of `[vmin, vmax]` onto `[0, 1]`. -/
def mpl_normalize (vmin vmax x : ℚ) : ℚ :=
  (x - vmin) / (vmax - vmin)

/-- `colorize` from cell 42, parameterized by the matplotlib colormap
composed with `rgb2hex` (`fun t => rgb2hex (cmap t)`), which maps a
normalized position in `[0, 1]` to a hex color string.  It normalizes with
`vmin = -cmap_bound`, `vmax = cmap_bound` where `cmap_bound` is the maximum
absolute attribution, and maps every attribution to its color. -/
def colorize (cmap_hex : ℚ → String) (attrs : List ℚ) : Option (List String) :=
  match np_abs_max attrs with
  | none => none
  | some cmap_bound =>
      some (attrs.map (fun x =>
        cmap_hex (mpl_normalize (-cmap_bound) cmap_bound x)))

/-- The normalized colormap positions `norm(x)` computed by `colorize` for
each attribution, before the colormap is applied. -/
def normalized_positions (attrs : List ℚ) : Option (List ℚ) :=
  (np_abs_max attrs).map (fun cmap_bound =>
    attrs.map (fun x => mpl_normalize (-cmap_bound) cmap_bound x))

/-! ### Functional model of the bar-plot dictionary (cell 47). -/

/-- Python `zip`: pairs positionally, truncating to the shorter input. -/
def pyZip (words : List String) (attributions : List ℚ) :
    List (String × ℚ) :=
  List.zip words attributions

/-- Inserting `k: v` into a Python dict represented as an insertion-ordered
association list: an existing key keeps its position but its value is
overwritten; a new key is appended. -/
def pyDictInsert (d : List (String × ℚ)) (k : String) (v : ℚ) :
    List (String × ℚ) :=
  if d.any (fun p => p.1 == k) then
    d.map (fun p => if p.1 == k then (k, v) else p)
  else d ++ [(k, v)]

/-- A Python dict built from a list of key-value pairs (the semantics of
the dict comprehension `{k: v for k, v in pairs}`). -/
def pyDictOfPairs (pairs : List (String × ℚ)) : List (String × ℚ) :=
  pairs.foldl (fun d p => pyDictInsert d p.1 p.2) []

/-- `importance_dict = {k: v for k, v in zip(words, attributions)}` from
cell 47. -/
def importance_dict (words : List String) (attributions : List ℚ) :
    List (String × ℚ) :=
  pyDictOfPairs (pyZip words attributions)

/-- The value paired with the last occurrence of key `k` in `pairs`. -/
def lastPairedValue (pairs : List (String × ℚ)) (k : String) : Option ℚ :=
  ((pairs.filter (fun p => p.1 == k)).getLast?).map Prod.snd

/-! ### Functional model of the TFMA evaluation configuration (cell 39 of
the fairness notebook), transcribing the `text_format.Parse` literal. -/

/-- A `model_specs` entry. -/
structure ModelSpec where
  label_key : String
deriving DecidableEq

/-- A metric inside a `metrics_specs` entry: its class name and the
thresholds of its JSON `config` string. -/
structure MetricConfig where
  class_name : String
  config_thresholds : List ℚ
deriving DecidableEq

/-- A `metrics_specs` entry. -/
structure MetricsSpec where
  metrics : List MetricConfig
deriving DecidableEq

/-- A `slicing_specs` entry. -/
structure SlicingSpec where
  feature_keys : List String
deriving DecidableEq

/-- The `options` block. -/
structure EvalOptions where
  compute_confidence_intervals : Bool
deriving DecidableEq

/-- A TFMA evaluation configuration. -/
structure EvalConfig where
  model_specs : List ModelSpec
  metrics_specs : List MetricsSpec
  slicing_specs : List SlicingSpec
  options : EvalOptions
deriving DecidableEq

/-- The evaluation configuration parsed in cell 39: label key `toxicity`,
the `FairnessIndicators` metric with thresholds 0.1, 0.3, 0.5, 0.7, 0.9,
the overall (empty) slicing spec and the `gender` slicing spec, and
confidence-interval computation off. -/
def eval_config : EvalConfig :=
  { model_specs := [{ label_key := "toxicity" }]
    metrics_specs :=
      [{ metrics :=
          [{ class_name := "FairnessIndicators"
             config_thresholds := [0.1, 0.3, 0.5, 0.7, 0.9] }] }]
    slicing_specs := [{ feature_keys := [] }, { feature_keys := ["gender"] }]
    options := { compute_confidence_intervals := false } }

/-! ### Claim theorems. -/

/-- Claim C1: for every assignment of its parameters, `my_pipeline`
constructs exactly three component ops — a tabular dataset creation op, a
custom-container training op, and a batch prediction op, in that creation
order — wired so that the training op consumes the dataset op's `"dataset"`
output and the batch prediction op consumes the training op's `"model"`
output. -/
theorem C1_pipeline_structure (BUCKET_NAME bq_source bucket project
    gcp_region bq_dest container_uri batch_destination : String) :
    (my_pipeline BUCKET_NAME bq_source bucket project gcp_region bq_dest
        container_uri batch_destination).length = 3 ∧
    (∃ a, (my_pipeline BUCKET_NAME bq_source bucket project gcp_region
        bq_dest container_uri batch_destination).get? 0 =
        some (PipelineOp.tabularDatasetCreate a)) ∧
    (∃ a, (my_pipeline BUCKET_NAME bq_source bucket project gcp_region
        bq_dest container_uri batch_destination).get? 1 =
        some (PipelineOp.customContainerTrainingJobRun a)) ∧
    (∃ a, (my_pipeline BUCKET_NAME bq_source bucket project gcp_region
        bq_dest container_uri batch_destination).get? 2 =
        some (PipelineOp.modelBatchPredict a)) ∧
    consumesOutput (my_pipeline BUCKET_NAME bq_source bucket project
        gcp_region bq_dest container_uri batch_destination) 1 0 "dataset" ∧
    consumesOutput (my_pipeline BUCKET_NAME bq_source bucket project
        gcp_region bq_dest container_uri batch_destination) 2 1 "model" := by
  refine ⟨rfl, ⟨_, rfl⟩, ⟨_, rfl⟩, ⟨_, rfl⟩, ⟨_, rfl, ?_⟩, ⟨_, rfl, ?_⟩⟩ <;>
    simp [my_pipeline, PipelineOp.inputRefs]

/-- Claim C2: `batch_examples.csv` has a header row of exactly 16
feature-column names not including the label column `Class`, and each of
its 21 data rows has exactly 16 comma-separated numeric values; a table
with these columns plus `Class` yields exactly these columns after
`df.pop("Class")`, as the training script does. -/
theorem C2_batch_examples_csv :
    (csvFields batch_examples_header).length = 16 ∧
    "Class".data ∉ csvFields batch_examples_header ∧
    batch_examples_rows.length = 21 ∧
    (batch_examples_rows.all (fun r =>
        (csvFields r).length == 16 && (csvFields r).all isNumericField))
      = true ∧
    df_pop_columns "Class"
        (((csvFields batch_examples_header).map (fun f => String.mk f)) ++
          ["Class"]) =
      (csvFields batch_examples_header).map (fun f => String.mk f) := by
  refine ⟨by decide, by decide, by decide, by decide, by decide⟩

/-- Claim C3: no code cell of the three notebooks (the generated `train.py`
included) contains a try/except handler or a while-style retry loop, and
the environment reads at the top of `train.py` raise an unhandled
`KeyError` when the corresponding variable is missing. -/
theorem C3_no_recovery_logic :
    (allCodeCells.all (fun c => !stmtsHaveTry c && !stmtsHaveWhile c))
      = true ∧
    stmtsHaveTry trainPyStmts = false ∧
    (∀ env : String → Option String, env "AIP_TRAINING_DATA_URI" = none →
      train_py_env_reads env =
        Except.error (PyError.keyError "AIP_TRAINING_DATA_URI")) ∧
    (∀ (env : String → Option String) (v : String),
      env "AIP_TRAINING_DATA_URI" = some v →
      env "AIP_TEST_DATA_URI" = none →
      train_py_env_reads env =
        Except.error (PyError.keyError "AIP_TEST_DATA_URI")) := by
  refine ⟨by decide, by decide, ?_, ?_⟩
  · intro env h
    simp [train_py_env_reads, osEnvironSubscript, h]
  · intro env v h1 h2
    simp [train_py_env_reads, osEnvironSubscript, h1, h2]

/-- Witness for C3: with an empty environment the first read raises
`KeyError("AIP_TRAINING_DATA_URI")`; with only the training variable set
the second read raises `KeyError("AIP_TEST_DATA_URI")`. -/
theorem C3_no_recovery_logic_witness :
    ((fun _ => none : String → Option String) "AIP_TRAINING_DATA_URI"
        = none) ∧
    train_py_env_reads (fun _ => none) =
      Except.error (PyError.keyError "AIP_TRAINING_DATA_URI") ∧
    train_py_env_reads
        (fun k => if k = "AIP_TRAINING_DATA_URI" then some "bq://t" else none) =
      Except.error (PyError.keyError "AIP_TEST_DATA_URI") :=
  ⟨rfl,
   C3_no_recovery_logic.2.2.1 (fun _ => none) rfl,
   C3_no_recovery_logic.2.2.2
     (fun k => if k = "AIP_TRAINING_DATA_URI" then some "bq://t" else none)
     "bq://t" (by simp) (by simp)⟩

/-- Claim C5: `send_explanation_request` sends exactly the singleton list
`[x_test[review]]` to `endpoint.explain` and, whenever the subscripted
fields exist, returns the 4-tuple of the instance, its label,
`result.predictions[0][0]` and `result.explanations[0]`. -/
theorem C5_send_explanation_request {E : Type} (x_test : Nat → List Int)
    (y_test : Nat → Int) (explain : List (List Int) → ExplainResult E)
    (review : Nat) (p0 : List ℚ) (q : ℚ) (e0 : E)
    (hp : (explain [x_test review]).predictions.get? 0 = some p0)
    (hq : p0.get? 0 = some q)
    (he : (explain [x_test review]).explanations.get? 0 = some e0) :
    send_explanation_request x_test y_test explain review =
      some (x_test review, y_test review, q, e0) ∧
    [x_test review].length = 1 := by
  constructor
  · simp only [List.get?_eq_getElem?] at hp hq he
    unfold send_explanation_request
    simp [hp, hq, he]
  · rfl

/-- Witness for C5: a concrete endpoint returning one prediction and one
explanation payload. -/
theorem C5_send_explanation_request_witness :
    ((fun _ => ExplainResult.mk [[97/100]] ["expl"] :
        List (List Int) → ExplainResult String)
      [(fun _ => [5, 7] : Nat → List Int) 0]).predictions.get? 0 =
        some [97/100] ∧
    send_explanation_request (fun _ => [5, 7]) (fun _ => 1)
        (fun _ => ExplainResult.mk [[97/100]] ["expl"]) 0 =
      some ([5, 7], 1, 97/100, "expl") ∧
    [(fun _ => [5, 7] : Nat → List Int) 0].length = 1 :=
  ⟨rfl,
   (C5_send_explanation_request (fun _ => [5, 7]) (fun _ => 1)
      (fun _ => ExplainResult.mk [[97/100]] ["expl"]) 0 [97/100] (97/100)
      "expl" rfl rfl rfl).1,
   (C5_send_explanation_request (fun _ => [5, 7]) (fun _ => 1)
      (fun _ => ExplainResult.mk [[97/100]] ["expl"]) 0 [97/100] (97/100)
      "expl" rfl rfl rfl).2⟩

/-- Claim C6: no executed code cell of the three notebooks constructs an
Apache Beam pipeline or creates a thread/process via a Python concurrency
primitive; the `beam.Pipeline` construction appears only in the fairness
notebook's markdown code listing, whose transcription therefore differs
from every executed cell. -/
theorem C6_no_concurrency :
    (allCodeCells.all
        (fun c => !usesBeamPipeline c && !createsThreadOrProcess c))
      = true ∧
    usesBeamPipeline fairnessBeamListing = true ∧
    (∀ c, c ∈ allCodeCells →
      usesBeamPipeline c ≠ usesBeamPipeline fairnessBeamListing) := by
  refine ⟨by decide, by decide, ?_⟩
  intro c hc
  have hall :
      (allCodeCells.all
        (fun c => !usesBeamPipeline c && !createsThreadOrProcess c))
      = true := by decide
  have h1 := List.all_eq_true.mp hall c hc
  have hlist : usesBeamPipeline fairnessBeamListing = true := by decide
  simp only [Bool.and_eq_true, Bool.not_eq_true'] at h1
  rw [h1.1, hlist]
  exact Bool.false_ne_true

/-- Witness for C6: the first pipelines cell is an executed cell and does
not construct a Beam pipeline, unlike the markdown listing. -/
theorem C6_no_concurrency_witness :
    pipelinesCell3 ∈ allCodeCells ∧
    usesBeamPipeline pipelinesCell3 ≠ usesBeamPipeline fairnessBeamListing :=
  ⟨by simp [allCodeCells, pipelinesCodeCells],
   C6_no_concurrency.2.2 pipelinesCell3
     (by simp [allCodeCells, pipelinesCodeCells])⟩

/-- Claim C7: the TFMA evaluation configuration has label key `toxicity`,
computes `FairnessIndicators` at exactly the thresholds 0.1, 0.3, 0.5,
0.7, 0.9, declares exactly the overall slice and the `gender` slice, and
disables confidence-interval computation. -/
theorem C7_eval_config :
    eval_config.model_specs.map ModelSpec.label_key = ["toxicity"] ∧
    ((eval_config.metrics_specs.map MetricsSpec.metrics).flatten.map
        MetricConfig.class_name) = ["FairnessIndicators"] ∧
    ((eval_config.metrics_specs.map MetricsSpec.metrics).flatten.map
        MetricConfig.config_thresholds) =
      [[1/10, 3/10, 1/2, 7/10, 9/10]] ∧
    eval_config.slicing_specs.map SlicingSpec.feature_keys =
      [[], ["gender"]] ∧
    eval_config.options.compute_confidence_intervals = false := by
  refine ⟨rfl, rfl, ?_, rfl, rfl⟩
  simp only [eval_config, List.map_cons, List.map_nil, List.flatten]
  norm_num

/-- `startswith` holds for a string built by prepending the tested pattern. -/
theorem pyStartswith_append (p t : List Char) :
    pyStartswith (p ++ t) p = true := by
  induction p with
  | nil => simp [pyStartswith]
  | cons c ps ih => simp [pyStartswith, ih]

/-- Claim C8, counterexample: the stripping is not idempotent on every
string — on `"bq://bq://proj.ds.table"` a second application removes a
second copy of the scheme. -/
theorem C8_counterexample :
    download_table_uri_arg
        (download_table_uri_arg "bq://bq://proj.ds.table".data) ≠
      download_table_uri_arg "bq://bq://proj.ds.table".data := by
  decide

/-- Claim C8, amended: `download_table` passes to
`TableReference.from_string` exactly its argument with a single leading
`"bq://"` removed when present and unchanged otherwise; the stripping is
idempotent whenever the once-stripped string does not itself start with
`"bq://"` (as for well-formed `project.dataset.table` ids), and under that
proviso prefixed and already-stripped URIs resolve identically. -/
theorem C8_prefix_stripping :
    (∀ {Table DF : Type} (from_string : List Char → Table)
        (list_rows_to_dataframe : Table → DF) (uri : List Char),
      download_table from_string list_rows_to_dataframe uri =
        list_rows_to_dataframe (from_string (download_table_uri_arg uri))) ∧
    (∀ t : List Char, download_table_uri_arg ("bq://".data ++ t) = t) ∧
    (∀ s : List Char, pyStartswith s "bq://".data = false →
      download_table_uri_arg s = s) ∧
    (∀ s : List Char,
      pyStartswith (download_table_uri_arg s) "bq://".data = false →
      download_table_uri_arg (download_table_uri_arg s) =
        download_table_uri_arg s) ∧
    (∀ t : List Char, pyStartswith t "bq://".data = false →
      download_table_uri_arg ("bq://".data ++ t) =
        download_table_uri_arg t) := by
  have hstrip : ∀ t : List Char,
      download_table_uri_arg ("bq://".data ++ t) = t := by
    intro t
    simp only [download_table_uri_arg, pyStartswith_append, if_true]
    exact List.drop_left _ _
  have hid : ∀ s : List Char, pyStartswith s "bq://".data = false →
      download_table_uri_arg s = s := by
    intro s h
    simp only [download_table_uri_arg, h, Bool.false_eq_true, if_false]
  refine ⟨fun _ _ _ => rfl, hstrip, hid, ?_, ?_⟩
  · intro s h
    exact hid _ h
  · intro t h
    rw [hstrip t, hid t h]

/-- Witness for C8 (amended): on the unprefixed id `"proj.ds.table"` the
prefixed and the bare URI resolve to the same table string. -/
theorem C8_prefix_stripping_witness :
    pyStartswith "proj.ds.table".data "bq://".data = false ∧
    download_table_uri_arg ("bq://".data ++ "proj.ds.table".data) =
      download_table_uri_arg "proj.ds.table".data :=
  ⟨by decide,
   C8_prefix_stripping.2.2.2.2 "proj.ds.table".data (by decide)⟩

/-- Claim C4, counterexample: `highlight` is a repository-authored local
computation — its value on concrete inputs is fully determined by the
embedded definition alone (no external service or library call), and it
genuinely transforms its input. -/
theorem C4_counterexample :
    highlight "great" "white" =
      "<mark style=background-color:white>great </mark>" ∧
    highlight "great" "white" ≠ highlight "terrible" "white" := by
  constructor
  · decide
  · decide

/-- Claim C4, amended: the notebook functions that wrap platform calls
(`my_pipeline`, `send_explanation_request`) delegate their results to
external components, but `highlight` (and likewise `decode_sentence` and
`colorize`) is a locally computed transformation with a statable contract:
the markup it returns adds exactly 38 characters around its two inputs. -/
theorem C4_local_transformation (s c : String) :
    (highlight s c).length = s.length + c.length + 38 := by
  have h1 : "<mark style=background-color:".length = 29 := rfl
  have h2 : ">".length = 1 := rfl
  have h3 : " </mark>".length = 8 := rfl
  simp [highlight, String.length_append, h1, h2, h3]
  omega

/-- Witness for C4 (amended) at concrete strings. -/
theorem C4_local_transformation_witness :
    (highlight "great" "white").length =
      ("great" : String).length + ("white" : String).length + 38 :=
  C4_local_transformation "great" "white"

/-- Overwriting the value at key `k` leaves the key sequence of a dict
unchanged. -/
theorem keys_map_overwrite (d : List (String × ℚ)) (k : String) (v : ℚ) :
    (d.map (fun p => if p.1 == k then (k, v) else p)).map Prod.fst =
      d.map Prod.fst := by
  induction d with
  | nil => rfl
  | cons p ps ih =>
    simp only [List.map_cons, ih, List.cons.injEq, and_true]
    by_cases h : p.1 = k
    · simp [h]
    · simp [h]

/-- The key sequence after a dict insertion: unchanged when the key is
present, extended by the key otherwise. -/
theorem keys_pyDictInsert (d : List (String × ℚ)) (k : String) (v : ℚ) :
    (pyDictInsert d k v).map Prod.fst =
      if d.any (fun p => p.1 == k) then d.map Prod.fst
      else d.map Prod.fst ++ [k] := by
  unfold pyDictInsert
  split
  · exact keys_map_overwrite d k v
  · simp

/-- A key on which `any` fails is not among the dict's keys. -/
theorem not_mem_keys_of_any_eq_false (d : List (String × ℚ)) (k : String)
    (h : d.any (fun p => p.1 == k) = false) : k ∉ d.map Prod.fst := by
  intro hk
  obtain ⟨p, hp, hpk⟩ := List.mem_map.mp hk
  have := List.any_eq_false.mp h p hp
  simp [hpk] at this

/-- Folding dict insertions over any pair list preserves key nodup-ness. -/
theorem nodup_keys_pyDictInsert_foldl (ps : List (String × ℚ)) :
    ∀ d : List (String × ℚ), (d.map Prod.fst).Nodup →
      (((ps.foldl (fun d p => pyDictInsert d p.1 p.2) d)).map
          Prod.fst).Nodup := by
  induction ps with
  | nil => intro d h; exact h
  | cons p ps ih =>
    intro d h
    refine ih _ ?_
    rw [keys_pyDictInsert]
    split
    · exact h
    · rename_i hany
      rw [Bool.not_eq_true] at hany
      rw [List.nodup_append]
      exact ⟨h, List.nodup_singleton _,
        by simpa [List.disjoint_right] using
          not_mem_keys_of_any_eq_false d p.1 hany⟩

/-- Python dict lookup `d[k]` on the association-list representation:
the value at the first (and, for dicts, only) entry with key `k`. -/
def pyDictGet (d : List (String × ℚ)) (k : String) : Option ℚ :=
  match d with
  | [] => none
  | p :: rest => if p.1 == k then some p.2 else pyDictGet rest k

/-- Looking up the inserted key finds the inserted value. -/
theorem pyDictGet_pyDictInsert_self (d : List (String × ℚ)) (k : String)
    (v : ℚ) : pyDictGet (pyDictInsert d k v) k = some v := by
  unfold pyDictInsert
  split
  · rename_i h
    induction d with
    | nil => simp at h
    | cons p ps ih =>
      rw [List.any_cons, Bool.or_eq_true] at h
      by_cases hp : p.1 = k
      · subst hp
        simp [pyDictGet]
      · have h2 : ps.any (fun q => q.1 == k) = true := by
          rcases h with h | h
          · exact absurd (beq_iff_eq.mp h) hp
          · exact h
        have hbeq : (p.1 == k) = false := beq_eq_false_iff_ne.mpr hp
        simp only [List.map_cons, hbeq, Bool.false_eq_true, if_false,
          pyDictGet]
        exact ih h2
  · rename_i h
    rw [Bool.not_eq_true] at h
    induction d with
    | nil => simp [pyDictGet]
    | cons p ps ih =>
      rw [List.any_cons, Bool.or_eq_false_iff] at h
      simp only [List.cons_append, pyDictGet, h.1, Bool.false_eq_true,
        if_false]
      exact ih h.2

/-- Looking up a different key is unaffected by an insertion. -/
theorem pyDictGet_pyDictInsert_ne (d : List (String × ℚ)) (k k2 : String)
    (v : ℚ) (hne : k ≠ k2) :
    pyDictGet (pyDictInsert d k v) k2 = pyDictGet d k2 := by
  unfold pyDictInsert
  split
  · rename_i hcond
    clear hcond
    induction d with
    | nil => rfl
    | cons p ps ih =>
      by_cases hp : p.1 = k
      · have hb : (k == k2) = false := beq_eq_false_iff_ne.mpr hne
        have hb2 : (p.1 == k2) = false := beq_eq_false_iff_ne.mpr
          (by rw [hp]; exact hne)
        simp only [List.map_cons, hp, beq_self_eq_true, if_true, pyDictGet,
          hb, hb2, Bool.false_eq_true, if_false]
        exact ih
      · have hbeq : (p.1 == k) = false := beq_eq_false_iff_ne.mpr hp
        simp only [List.map_cons, hbeq, Bool.false_eq_true, if_false,
          pyDictGet]
        split
        · rfl
        · exact ih
  · rename_i hcond
    clear hcond
    induction d with
    | nil =>
      have hb : (k == k2) = false := beq_eq_false_iff_ne.mpr hne
      simp [pyDictGet, hb]
    | cons p ps ih =>
      simp only [List.cons_append, pyDictGet]
      split
      · rfl
      · exact ih

/-- The last paired value after appending one pair. -/
theorem lastPairedValue_append_single (ps : List (String × ℚ))
    (q : String × ℚ) (k : String) :
    lastPairedValue (ps ++ [q]) k =
      if q.1 == k then some q.2 else lastPairedValue ps k := by
  unfold lastPairedValue
  rw [List.filter_append]
  by_cases h : q.1 == k
  · simp [List.filter, h, List.getLast?_concat]
  · rw [Bool.not_eq_true] at h
    simp [List.filter, h]

/-- The dict built from a pair list maps each key to the value of that
key's last occurrence. -/
theorem pyDictGet_pyDictOfPairs (ps : List (String × ℚ)) (k : String) :
    pyDictGet (pyDictOfPairs ps) k = lastPairedValue ps k := by
  induction ps using List.reverseRecOn with
  | nil => rfl
  | append_singleton ps q ih =>
    have hfold : pyDictOfPairs (ps ++ [q]) =
        pyDictInsert (pyDictOfPairs ps) q.1 q.2 := by
      simp [pyDictOfPairs, List.foldl_append]
    rw [hfold, lastPairedValue_append_single]
    by_cases hq : q.1 = k
    · rw [if_pos (beq_iff_eq.mpr hq), ← hq]
      exact pyDictGet_pyDictInsert_self _ _ _
    · rw [if_neg (by simpa using hq)]
      rw [pyDictGet_pyDictInsert_ne _ _ _ _ hq]
      exact ih

/-- Claim C9: `importance_dict` pairs words with attributions positionally
(`zip` truncates to the shorter list), has at most one entry per distinct
word (its key sequence has no duplicates), and maps every word to the
attribution of that word's last zipped occurrence, discarding earlier
occurrences. -/
theorem C9_importance_dict (words : List String) (attributions : List ℚ) :
    (pyZip words attributions).length =
      min words.length attributions.length ∧
    ((importance_dict words attributions).map Prod.fst).Nodup ∧
    (∀ k, pyDictGet (importance_dict words attributions) k =
      lastPairedValue (pyZip words attributions) k) := by
  refine ⟨List.length_zip _ _, ?_, ?_⟩
  · exact nodup_keys_pyDictInsert_foldl _ _ List.nodup_nil
  · intro k
    exact pyDictGet_pyDictOfPairs _ k

/-- Negating every attribution leaves the maximum absolute value
unchanged. -/
theorem np_abs_max_neg (attrs : List ℚ) :
    np_abs_max (attrs.map (fun x => -x)) = np_abs_max attrs := by
  cases attrs with
  | nil => rfl
  | cons a rest =>
    simp [np_abs_max, List.foldl_map, abs_neg]

/-- Symmetric normalization sends a negated value to the mirror image of
the value's normalized position about 1/2. -/
theorem mpl_normalize_neg (b x : ℚ) (hb : b ≠ 0) :
    mpl_normalize (-b) b (-x) = 1 - mpl_normalize (-b) b x := by
  have hbb : b + b ≠ 0 := by
    rw [← two_mul]
    exact mul_ne_zero two_ne_zero hb
  unfold mpl_normalize
  rw [sub_neg_eq_add, sub_neg_eq_add, sub_neg_eq_add, eq_sub_iff_add_eq,
    div_add_div_same, show -x + b + (x + b) = b + b by ring]
  exact div_self hbb

/-- Claim C10: for a nonempty attribution list with positive maximum
absolute value, `colorize` returns exactly one color per attribution via
the normalization with `vmin = -max|attrs|`, `vmax = max|attrs|`; the
attribution 0 normalizes to the colormap midpoint 1/2, and negating every
attribution mirrors every normalized position about that midpoint. -/
theorem C10_colorize (cmap_hex : ℚ → String) (attrs : List ℚ) (b : ℚ)
    (hb : np_abs_max attrs = some b) (hpos : 0 < b) :
    (∃ l, colorize cmap_hex attrs = some l ∧ l.length = attrs.length) ∧
    mpl_normalize (-b) b 0 = 1/2 ∧
    normalized_positions (attrs.map (fun x => -x)) =
      (normalized_positions attrs).map (fun l => l.map (fun t => 1 - t)) := by
  have hb0 : b ≠ 0 := ne_of_gt hpos
  refine ⟨⟨_, by rw [colorize, hb], by simp⟩, ?_, ?_⟩
  · unfold mpl_normalize
    rw [sub_neg_eq_add, sub_neg_eq_add, zero_add]
    rw [show b + b = 2 * b by ring]
    rw [div_eq_iff (by positivity)]
    ring
  · unfold normalized_positions
    rw [np_abs_max_neg, hb]
    simp only [Option.map_some', Option.some.injEq, List.map_map,
      Function.comp]
    refine List.map_congr_left ?_
    intro x _
    exact mpl_normalize_neg b x hb0

/-- Witness for C10 on the concrete attribution list `[1, -2]`, whose
maximum absolute value is 2. -/
theorem C10_colorize_witness :
    np_abs_max [(1 : ℚ), -2] = some 2 ∧ (0 : ℚ) < 2 ∧
    ((∃ l, colorize (fun _ => "#000000") [(1 : ℚ), -2] = some l ∧
        l.length = [(1 : ℚ), -2].length) ∧
      mpl_normalize (-2) 2 0 = 1/2 ∧
      normalized_positions ([(1 : ℚ), -2].map (fun x => -x)) =
        (normalized_positions [(1 : ℚ), -2]).map
          (fun l => l.map (fun t => 1 - t))) :=
  ⟨by norm_num [np_abs_max], by norm_num,
   C10_colorize (fun _ => "#000000") [(1 : ℚ), -2] 2
     (by norm_num [np_abs_max]) (by norm_num)⟩
